import Mathlib

/-!
Shallow embedding of the reply-generation pipeline of `src/src/agent/chain.js`
(the current variant of the file, i.e. the section containing
`getWordCountStats`, `verify` with the hard length check, and the
`thinkAndReply` retry loop with the `SENT` / `SENT_SUGGESTION` / `SKIPPED`
terminal states).

Modelling conventions:
* JavaScript strings are Lean `String`s; `String.length` (codepoints) models
  JS `.length` (UTF-16 units) — identical on the ASCII data used here.
* The JS regex whitespace class `\s` is modelled by `Char.isWhitespace`
  (space, tab, CR, LF), which agrees with `\s` on the ASCII inputs involved.
* Calls to the completion service (`callLLM`) are modelled by oracle
  functions passed as arguments; a thrown exception is a distinguished
  oracle outcome.
-/

namespace ChainSpec

/-- JS `str.split(/\s+/)` on a list of characters.  `acc` is the current
piece (reversed), `inRun` records whether the previous character was part of
a whitespace run (a maximal run is a single separator). -/
def jsSplitWsGo : List Char → List Char → Bool → List String
  | [], acc, _ => [String.mk acc.reverse]
  | c :: rest, acc, inRun =>
    if c.isWhitespace then
      if inRun then jsSplitWsGo rest acc true
      else String.mk acc.reverse :: jsSplitWsGo rest [] true
    else jsSplitWsGo rest (c :: acc) false

/-- JS `str.split(/\s+/)`: splits on maximal whitespace runs, keeping empty
pieces at the boundaries (`"".split(/\s+/)` is `[""]`). -/
def jsSplitWs (s : String) : List String :=
  jsSplitWsGo s.data [] false

/-- JS `str.split(/\s+/).length`, the word count used throughout `chain.js`. -/
def jsWordCount (s : String) : Nat :=
  (jsSplitWs s).length

/-- JS `str.trim()`. -/
def jsTrim (s : String) : String :=
  String.mk (((s.data.dropWhile Char.isWhitespace).reverse.dropWhile Char.isWhitespace).reverse)

/-- JS `str.toLowerCase()` (ASCII). -/
def jsToLower (s : String) : String :=
  String.mk (s.data.map Char.toLower)

/-- JS `str.startsWith(p)`. -/
def strStartsWith (s p : String) : Bool :=
  p.data.isPrefixOf s.data

/-- JS `str.split(sep)` for a one-character literal separator. -/
def jsSplitCharGo (sep : Char) : List Char → List Char → List String
  | [], acc => [String.mk acc.reverse]
  | c :: rest, acc =>
    if c = sep then String.mk acc.reverse :: jsSplitCharGo sep rest []
    else jsSplitCharGo sep rest (c :: acc)

/-- JS `str.split(sep)` for a one-character separator (`','`, `'\n'`). -/
def jsSplitChar (s : String) (sep : Char) : List String :=
  jsSplitCharGo sep s.data []

/-- JS `arr.slice(-n)`: the last `n` elements (all of them if fewer). -/
def takeLast (n : Nat) (l : List String) : List String :=
  l.drop (l.length - n)

/-- JS `arr.join(sep)`. -/
def joinSep (sep : String) : List String → String
  | [] => ""
  | [x] => x
  | x :: y :: xs => x ++ sep ++ joinSep sep (y :: xs)

/-- `AUTO_REPLY_FILLER` (chain.js lines 507-510): common 1-word auto-reply
outputs that pollute style stats. -/
def AUTO_REPLY_FILLER : List String :=
  ["khai", "hmm", "okey", "ok", "haha", "lol", "ohh", "ahh", "hm",
   "yes", "no", "yep", "nah", "sure", "nice", "wow", "damn"]

/-- `isLikelyAutoFiller` (chain.js lines 515-520): a message is filler when it
is nonempty, has at most 2 words, and its first word (lowercased) is in
`AUTO_REPLY_FILLER`. -/
def isLikelyAutoFiller (body : String) : Bool :=
  if body = "" then false
  else
    let words := jsSplitWs (jsTrim body)
    if words.length > 2 then false
    else AUTO_REPLY_FILLER.contains (jsToLower (words.headD ""))

/-- The regex `^\[[^\]]+\](?:\s*\([^)]*\))?:\s*` applied by
`line.replace(regex, '')` (chain.js lines 532 and 557): strips a leading
`[speaker]`, an optional `(time)` group, a colon and following whitespace;
when the pattern does not match, the line is returned unchanged. -/
def stripSpeakerLabel (line : String) : String :=
  match line.data with
  | c0 :: rest =>
    if c0 = Char.ofNat 91 then
      let inner := rest.takeWhile (fun c => c ≠ Char.ofNat 93)
      if inner.isEmpty then line
      else
        match rest.drop inner.length with
        | cb :: after =>
          if cb = Char.ofNat 93 then
            let parenTail : Option (List Char) :=
              match after.dropWhile Char.isWhitespace with
              | cp :: r2 =>
                if cp = Char.ofNat 40 then
                  let in2 := r2.takeWhile (fun c => c ≠ Char.ofNat 41)
                  match r2.drop in2.length with
                  | cq :: a2 => if cq = Char.ofNat 41 then some a2 else none
                  | [] => none
                else none
              | [] => none
            match parenTail with
            | some a2 =>
              match a2 with
              | cc :: tail =>
                if cc = Char.ofNat 58 then String.mk (tail.dropWhile Char.isWhitespace)
                else
                  match after with
                  | cd :: tail2 =>
                    if cd = Char.ofNat 58 then String.mk (tail2.dropWhile Char.isWhitespace)
                    else line
                  | [] => line
              | [] =>
                match after with
                | cd :: tail2 =>
                  if cd = Char.ofNat 58 then String.mk (tail2.dropWhile Char.isWhitespace)
                  else line
                | [] => line
            | none =>
              match after with
              | cd :: tail2 =>
                if cd = Char.ofNat 58 then String.mk (tail2.dropWhile Char.isWhitespace)
                else line
              | [] => line
          else line
        | [] => line
    else line
  | [] => line

/-- `body` as computed for a history line (chain.js lines 532/557):
strip the speaker label, then `trim()`. -/
def lineBody (line : String) : String :=
  jsTrim (stripSpeakerLabel line)

/-- The shared per-line extraction of `extractUserExamples` (lines 530-537)
and `getWordCountStats` (lines 555-566): keep lines starting with
`[userName]` whose body is nonempty and is not a file attachment or link. -/
def collectBodies (flow userName : String) : List String :=
  (jsSplitChar flow (Char.ofNat 10)).filterMap (fun line =>
    if strStartsWith line ("[" ++ userName ++ "]") then
      let b := lineBody line
      if b ≠ "" ∧ ¬ strStartsWith b "[File:" ∧ ¬ strStartsWith b "http" then some b
      else none
    else none)

structure WordStats where
  min : Nat
  avg : Nat
  max : Nat
  p75 : Nat
  upper : Nat
deriving Repr, DecidableEq

/-- The default envelope of `getWordCountStats` (line 550). -/
def defaultStats : WordStats :=
  { min := 1, avg := 3, max := 8, p75 := 5, upper := 8 }

def insertAsc (x : Nat) : List Nat → List Nat
  | [] => [x]
  | y :: ys => if x ≤ y then x :: y :: ys else y :: insertAsc x ys

/-- JS `lengths.sort((a, b) => a - b)`. -/
def sortAsc : List Nat → List Nat
  | [] => []
  | x :: xs => insertAsc x (sortAsc xs)

/-- JS `Math.round(sum / len)` for natural `sum` and positive `len`:
round-half-up of the rational quotient. -/
def jsRoundDiv (sum len : Nat) : Nat :=
  (2 * sum + len) / (2 * len)

/-- Lines 572-581 of chain.js: statistics of a nonempty sample. -/
def computeStats (lengths0 : List Nat) : WordStats :=
  let lengths := sortAsc lengths0
  let mn := lengths.headD 0
  let mx := lengths.getLastD 0
  let sum := lengths.foldl (fun a b => a + b) 0
  let avg := jsRoundDiv sum lengths.length
  let p75Index := lengths.length * 3 / 4
  let p75 :=
    match lengths.get? p75Index with
    | some v => if v = 0 then avg else v
    | none => avg
  let upper := Nat.max (avg + 3) (Nat.max p75 5)
  { min := mn, avg := avg, max := mx, p75 := p75, upper := upper }

/-- The `allLengths` sample of `getWordCountStats`. -/
def allSample (flow userName : String) : List Nat :=
  (collectBodies flow userName).map (fun b => (jsSplitWs b).length)

/-- The `realLengths` sample of `getWordCountStats` (bodies not classified as
auto-reply filler). -/
def realSample (flow userName : String) : List Nat :=
  ((collectBodies flow userName).filter (fun b => ¬ isLikelyAutoFiller b)).map
    (fun b => (jsSplitWs b).length)

/-- `getWordCountStats` (chain.js lines 549-582). -/
def getWordCountStats (flow userName : String) : WordStats :=
  if flow = "" then defaultStats
  else
    let realLengths := realSample flow userName
    let lengths := if realLengths.length ≥ 3 then realLengths else allSample flow userName
    if lengths.isEmpty then defaultStats else computeStats lengths

/-- `extractUserExamples` (chain.js lines 526-543) with the default
`maxExamples = 15`. -/
def extractUserExamples (flow userName : String) : String :=
  if flow = "" then ""
  else
    let userMsgs := collectBodies flow userName
    let real := userMsgs.filter (fun m => ¬ isLikelyAutoFiller m)
    let pool := if real.length ≥ 3 then real else userMsgs
    joinSep ", " ((takeLast 15 pool).map (fun m => "\"" ++ m ++ "\""))

/-- `VerificationVerdict`: the `{ pass, reason, suggestion }` record returned
by `verify` (chain.js lines 861-865); `suggestion` defaults to `""`. -/
structure Verdict where
  pass : Bool
  reason : String
  suggestion : String
deriving Repr, DecidableEq

/-- `const effectiveUpper = isEmergency ? 15 : s.upper` in `decide`
(chain.js line 663). -/
def decide_effectiveUpper (isEmergency : Bool) (s : WordStats) : Nat :=
  if isEmergency then 15 else s.upper

/-- `const effectiveUpper = isEmergency ? 15 : s.upper` in `write`
(chain.js line 729). -/
def write_effectiveUpper (isEmergency : Bool) (s : WordStats) : Nat :=
  if isEmergency then 15 else s.upper

/-- `const effectiveUpper = isEmergency ? 15 : s.upper` in `verify`
(chain.js line 798). -/
def verify_effectiveUpper (isEmergency : Bool) (s : WordStats) : Nat :=
  if isEmergency then 15 else s.upper

/-- `const effectiveUpper = isEmergency ? 15 : s.upper` in `rewrite`
(chain.js line 874). -/
def rewrite_effectiveUpper (isEmergency : Bool) (s : WordStats) : Nat :=
  if isEmergency then 15 else s.upper

/-- The `reason` string of the hard length failure (chain.js line 805). -/
def lengthFailReason (wc eu : Nat) : String :=
  "Reply is " ++ toString wc ++ " words — way beyond the " ++ toString eu ++
    "-word upper limit for this context."

/-- The `suggestion` string of the hard length failure (chain.js line 806). -/
def shortenSuggestion (s : WordStats) (eu : Nat) (userExamples : String) : String :=
  "Shorten to around " ++ toString s.avg ++ "-" ++ toString eu ++
    " words. Use fragments like: " ++
    joinSep "," ((jsSplitChar userExamples (Char.ofNat 44)).take 3)

/-- The purely local fail-fast phase of `verify` (chain.js lines 798-808):
`some v` is an immediate verdict, `none` means the judge model is consulted. -/
def verifyHardFail (reply : String) (s : WordStats) (isEmergency : Bool)
    (userExamples : String) : Option Verdict :=
  let eu := verify_effectiveUpper isEmergency s
  let wc := jsWordCount reply
  if wc > eu * 2 ∧ wc > 12 then
    some { pass := false, reason := lengthFailReason wc eu,
           suggestion := shortenSuggestion s eu userExamples }
  else none

/-- `verify` (chain.js lines 795-866) with the completion-service judge
abstracted as an oracle `judge` (the parsed verdict of the `callLLM` result):
the hard local check decides when it fires, otherwise the judge decides. -/
def verifyFull (judge : String → Verdict) (reply : String) (s : WordStats)
    (isEmergency : Bool) (flow userName : String) : Verdict :=
  match verifyHardFail reply s isEmergency (extractUserExamples flow userName) with
  | some v => v
  | none => judge reply

/-- JS `str.replace(/^["']|["']$/g, '').trim()` (chain.js line 1049, also in
`write`/`rewrite` cleanup): drop one surrounding quote on each side, then trim. -/
def jsStripQuotesTrim (s : String) : String :=
  let isQuote := fun (c : Char) => c = Char.ofNat 34 ∨ c = Char.ofNat 39
  let cs :=
    match s.data with
    | c :: rest => if isQuote c then rest else c :: rest
    | [] => []
  let cs2 :=
    match cs.getLast? with
    | some c => if isQuote c then cs.dropLast else cs
    | none => cs
  jsTrim (String.mk cs2)

/-- One verification attempt as seen by the retry loop: either the
completion service threw (`err`), or `verify` returned a verdict. -/
inductive VStep
  | err
  | ok (v : Verdict)
deriving Repr, DecidableEq

/-- Terminal result of `thinkAndReply`: a sent candidate, an adopted
verifier suggestion, or no message (`null`). -/
inductive Outcome
  | SENT (reply : String)
  | SENT_SUGGESTION (text : String)
  | SKIPPED
deriving Repr, DecidableEq

/-- Audit-log events emitted by the retry loop (`logger.logStep('Verify',…)`,
`logger.logStep('Rewrite',…)`, `logger.logFinal(…)`). -/
inductive LogEntry
  | verifyVerdict (attempt : Nat) (pass : Bool)
  | verifyError (attempt : Nat)
  | rewriteDone (attempt : Nat)
  | finalState (label : String)
deriving Repr, DecidableEq

/-- `MAX_RETRIES` (chain.js line 1010). -/
def MAX_RETRIES : Nat := 2

/-- The usability test of the last verdict's suggestion (chain.js line 1048):
present, not the literal `"none"`, nonempty and shorter than 100 characters. -/
def usableSuggestion (s : String) : Bool :=
  s ≠ "" ∧ s ≠ "none" ∧ s.length > 0 ∧ s.length < 100

/-- Lines 1047-1056 of chain.js: after all retries failed, adopt the last
verdict's suggestion when usable (`SENT_SUGGESTION`), else return null
(`SKIPPED`). -/
def fallbackOutcome (last : Verdict) : Outcome × List LogEntry :=
  if usableSuggestion last.suggestion then
    (Outcome.SENT_SUGGESTION (jsStripQuotesTrim last.suggestion),
     [LogEntry.finalState "SENT_SUGGESTION"])
  else
    (Outcome.SKIPPED, [LogEntry.finalState "SKIPPED"])

/-- The verify/rewrite loop of `thinkAndReply` (chain.js lines 1013-1056).
`remaining` is `MAX_RETRIES - attempt`; `vstep` is the effectful call to
`verify` at a given attempt index and candidate, and `rw` the effectful call
to `rewrite`.  A pass or a thrown verification error terminates with `SENT`;
a failing verdict with no attempt remaining goes to the fallback. -/
def chainLoop (vstep : Nat → String → VStep) (rw : Nat → String → Verdict → String) :
    Nat → Nat → String → Outcome × List LogEntry
  | 0, attempt, reply =>
    (match vstep attempt reply with
     | VStep.err => (Outcome.SENT reply, [LogEntry.verifyError attempt, LogEntry.finalState "SENT"])
     | VStep.ok v =>
       if v.pass then
         (Outcome.SENT reply, [LogEntry.verifyVerdict attempt true, LogEntry.finalState "SENT"])
       else
         let ol := fallbackOutcome v
         (ol.1, LogEntry.verifyVerdict attempt false :: ol.2))
  | r + 1, attempt, reply =>
    (match vstep attempt reply with
     | VStep.err => (Outcome.SENT reply, [LogEntry.verifyError attempt, LogEntry.finalState "SENT"])
     | VStep.ok v =>
       if v.pass then
         (Outcome.SENT reply, [LogEntry.verifyVerdict attempt true, LogEntry.finalState "SENT"])
       else
         let ol := chainLoop vstep rw r (attempt + 1) (rw attempt reply v)
         (ol.1, LogEntry.verifyVerdict attempt false :: LogEntry.rewriteDone attempt :: ol.2))

/-- The retry state machine of `thinkAndReply` applied to the draft from
`write`, with its audit log. -/
def thinkAndReplyOutcome (draft : String) (vstep : Nat → String → VStep)
    (rw : Nat → String → Verdict → String) : Outcome × List LogEntry :=
  chainLoop vstep rw MAX_RETRIES 0 draft

/-- The candidate text current at the start of attempt `i`, when every
earlier attempt produced the verdict `vdict i r` and was rewritten. -/
def replyAt (draft : String) (rw : Nat → String → Verdict → String)
    (vdict : Nat → String → Verdict) : Nat → String
  | 0 => draft
  | i + 1 =>
    let r := replyAt draft rw vdict i
    rw i r (vdict i r)

/-- A record of the history store (`vectordb.getRecentMessages`): sender
side, WhatsApp message id, optional rendered time label, body.  The time
label abstracts `toLocaleTimeString`, whose locale-dependent output is
irrelevant to the pipeline logic. -/
structure HistMsg where
  fromMe : Bool
  id : String
  timeLabel : Option String
  body : String
deriving Repr, DecidableEq

/-- One line of `conversationFlow` (chain.js lines 969-975): machine-generated
outgoing messages (id starting `auto_`/`web_`) get the `[AI-GENERATED]` tag. -/
def renderLine (userName contactName : String) (m : HistMsg) : String :=
  let sender := if m.fromMe then userName else contactName
  let timePart :=
    match m.timeLabel with
    | some t => " (" ++ t ++ ")"
    | none => ""
  let isAuto := m.fromMe ∧ m.id ≠ "" ∧ (strStartsWith m.id "auto_" ∨ strStartsWith m.id "web_")
  "[" ++ sender ++ "]" ++ timePart ++ (if isAuto then " [AI-GENERATED]" else "") ++ ": " ++ m.body

/-- `conversationFlow` (chain.js lines 967-977): empty when there is no
history, else the rendered lines joined by newlines. -/
def buildFlow (userName contactName : String) (msgs : List HistMsg) : String :=
  if msgs.isEmpty then ""
  else joinSep "\n" (msgs.map (renderLine userName contactName))

/-! ## Helper lemmas -/

theorem verifyHardFail_shape (reply : String) (s : WordStats) (emerg : Bool) (ex : String) :
    verifyHardFail reply s emerg ex =
      if jsWordCount reply > verify_effectiveUpper emerg s * 2 ∧ jsWordCount reply > 12 then
        some { pass := false,
               reason := lengthFailReason (jsWordCount reply) (verify_effectiveUpper emerg s),
               suggestion := shortenSuggestion s (verify_effectiveUpper emerg s) ex }
      else none := rfl

theorem verifyFull_of_hardFail (judge : String → Verdict) (reply : String) (s : WordStats)
    (emerg : Bool) (flow userName : String) (v : Verdict)
    (h : verifyHardFail reply s emerg (extractUserExamples flow userName) = some v) :
    verifyFull judge reply s emerg flow userName = v := by
  unfold verifyFull
  rw [h]

theorem verifyFull_of_delegate (judge : String → Verdict) (reply : String) (s : WordStats)
    (emerg : Bool) (flow userName : String)
    (h : verifyHardFail reply s emerg (extractUserExamples flow userName) = none) :
    verifyFull judge reply s emerg flow userName = judge reply := by
  unfold verifyFull
  rw [h]

theorem chainLoop_step_fail (vstep : Nat → String → VStep)
    (rwr : Nat → String → Verdict → String) (r attempt : Nat) (reply : String) (v : Verdict)
    (h : vstep attempt reply = VStep.ok v) (hp : v.pass = false) :
    chainLoop vstep rwr (r + 1) attempt reply =
      ((chainLoop vstep rwr r (attempt + 1) (rwr attempt reply v)).1,
        LogEntry.verifyVerdict attempt false :: LogEntry.rewriteDone attempt ::
          (chainLoop vstep rwr r (attempt + 1) (rwr attempt reply v)).2) := by
  simp only [chainLoop]
  rw [h]
  simp [hp]

theorem chainLoop_last_fail (vstep : Nat → String → VStep)
    (rwr : Nat → String → Verdict → String) (attempt : Nat) (reply : String) (v : Verdict)
    (h : vstep attempt reply = VStep.ok v) (hp : v.pass = false) :
    chainLoop vstep rwr 0 attempt reply =
      ((fallbackOutcome v).1, LogEntry.verifyVerdict attempt false :: (fallbackOutcome v).2) := by
  simp only [chainLoop]
  rw [h]
  simp [hp]

theorem chainLoop_err (vstep : Nat → String → VStep)
    (rwr : Nat → String → Verdict → String) (r attempt : Nat) (reply : String)
    (h : vstep attempt reply = VStep.err) :
    chainLoop vstep rwr r attempt reply =
      (Outcome.SENT reply, [LogEntry.verifyError attempt, LogEntry.finalState "SENT"]) := by
  cases r <;> (simp only [chainLoop]; rw [h])

theorem strLengthPos (s : String) (h : s ≠ "") : 0 < s.length := by
  cases s with
  | mk d =>
    cases d with
    | nil => exact absurd rfl h
    | cons a l => simp [String.length]

/-! ## C6 -/

/-- C6: in each of the four completion-service stages — `decide`, `write`,
`verify` and `rewrite` — the effective upper word bound equals the fixed
emergency ceiling 15 when the emergency flag is set, regardless of the
statistical upper value, and equals the statistical upper otherwise. -/
theorem C6_effective_upper_override (s : WordStats) :
    decide_effectiveUpper true s = 15 ∧ decide_effectiveUpper false s = s.upper ∧
    write_effectiveUpper true s = 15 ∧ write_effectiveUpper false s = s.upper ∧
    verify_effectiveUpper true s = 15 ∧ verify_effectiveUpper false s = s.upper ∧
    rewrite_effectiveUpper true s = 15 ∧ rewrite_effectiveUpper false s = s.upper :=
  ⟨rfl, rfl, rfl, rfl, rfl, rfl, rfl, rfl⟩

/-! ## C3 -/

/-- C3: a candidate whose word count is strictly greater than twice the
effective upper bound and strictly greater than 12 makes `verify` return an
immediate failing verdict with the shortening suggestion, independently of
the judge oracle (so no completion-service call decides the result). -/
theorem C3_gross_length_fails_locally (reply : String) (s : WordStats) (emerg : Bool)
    (flow userName : String)
    (h1 : jsWordCount reply > verify_effectiveUpper emerg s * 2)
    (h2 : jsWordCount reply > 12) :
    ∀ judge : String → Verdict,
      verifyFull judge reply s emerg flow userName =
        { pass := false,
          reason := lengthFailReason (jsWordCount reply) (verify_effectiveUpper emerg s),
          suggestion := shortenSuggestion s (verify_effectiveUpper emerg s)
            (extractUserExamples flow userName) } := by
  intro judge
  apply verifyFull_of_hardFail
  rw [verifyHardFail_shape, if_pos ⟨h1, h2⟩]

def c3reply : String := "w w w w w w w w w w w w w w w w w"

def c3judge : String → Verdict := fun _ => { pass := true, reason := "", suggestion := "" }

/-- Witness for C3 at a concrete 17-word reply with the default statistics. -/
theorem C3_gross_length_fails_locally_witness :
    jsWordCount c3reply > verify_effectiveUpper false defaultStats * 2 ∧
    jsWordCount c3reply > 12 ∧
    (verifyFull c3judge c3reply defaultStats false "" "A").pass = false := by
  refine ⟨by decide, by decide, ?_⟩
  rw [C3_gross_length_fails_locally c3reply defaultStats false "" "A"
    (by decide) (by decide) c3judge]

/-! ## C2 -/

def c2flow : String := "[A]: hi there"

def c2judgePass : String → Verdict :=
  fun _ => { pass := true, reason := "fits", suggestion := "none" }

/-- C2 counterexample: the candidate `"hi there"` is exactly equal to an
entry of the subject's recent outgoing messages extracted from the
conversation flow, yet the local phase of `verify` delegates (`none`) and
the verdict is whatever the judge model returns — here even a pass.  There
is no local duplicate check with reason "duplicate". -/
theorem C2_counterexample :
    collectBodies c2flow "A" = ["hi there"] ∧
    verifyHardFail "hi there" defaultStats false (extractUserExamples c2flow "A") = none ∧
    verifyFull c2judgePass "hi there" defaultStats false c2flow "A" =
      { pass := true, reason := "fits", suggestion := "none" } := by
  refine ⟨by decide, by decide, ?_⟩
  exact verifyFull_of_delegate c2judgePass "hi there" defaultStats false c2flow "A" (by decide)

/-- C2 amended: `verify` has no local duplicate check.  Its only local
fail-fast check is the gross length check (the local phase fires exactly on
gross length violations), and whenever that check does not fire — in
particular for any duplicate of a recent reply that is not grossly long —
the verdict is the judge model's, i.e. a completion-service call is made. -/
theorem C2_no_local_duplicate_check (reply : String) (s : WordStats) (emerg : Bool)
    (ex : String) :
    (verifyHardFail reply s emerg ex = none ↔
      ¬(jsWordCount reply > verify_effectiveUpper emerg s * 2 ∧ jsWordCount reply > 12)) ∧
    (∀ judge flow userName,
      verifyHardFail reply s emerg (extractUserExamples flow userName) = none →
      verifyFull judge reply s emerg flow userName = judge reply) := by
  constructor
  · rw [verifyHardFail_shape]
    by_cases h : jsWordCount reply > verify_effectiveUpper emerg s * 2 ∧ jsWordCount reply > 12
    · simp [h]
    · simp [h]
  · intro judge flow userName h
    exact verifyFull_of_delegate judge reply s emerg flow userName h

/-- Witness for the amended C2 at the duplicate candidate of the
counterexample. -/
theorem C2_no_local_duplicate_check_witness :
    verifyFull c2judgePass "hi there" defaultStats false c2flow "A" = c2judgePass "hi there" := by
  exact (C2_no_local_duplicate_check "hi there" defaultStats false
    (extractUserExamples c2flow "A")).2 c2judgePass c2flow "A" (by decide)

/-! ## C8 -/

/-- C8 counterexample: `"zq"` is a single short token (one word, two
characters, under any positive length threshold above 2), yet
`isLikelyAutoFiller` classifies it as not filler, because the code only
tests membership of the first word in `AUTO_REPLY_FILLER` and has no
short-token disjunct. -/
theorem C8_counterexample :
    isLikelyAutoFiller "zq" = false ∧
    (jsSplitWs (jsTrim "zq")).length = 1 ∧
    "zq".length = 2 := by
  decide

/-- C8 amended: a message is classified as likely filler exactly when it is
nonempty, has at most two words, and its first word, lowercased, belongs to
the acknowledgement set `AUTO_REPLY_FILLER`; in particular every message of
three or more words is classified as not filler. -/
theorem C8_filler_iff_first_word_in_set (body : String) :
    (isLikelyAutoFiller body = true ↔
      body ≠ "" ∧ (jsSplitWs (jsTrim body)).length ≤ 2 ∧
        AUTO_REPLY_FILLER.contains (jsToLower ((jsSplitWs (jsTrim body)).headD "")) = true) ∧
    ((jsSplitWs (jsTrim body)).length ≥ 3 → isLikelyAutoFiller body = false) := by
  unfold isLikelyAutoFiller
  by_cases hb : body = ""
  · subst hb
    refine ⟨by simp, by intro h; simp⟩
  · by_cases hl : (jsSplitWs (jsTrim body)).length > 2
    · refine ⟨by simp [hb, hl], by intro h; simp [hb, hl]⟩
    · refine ⟨by simp [hb, hl]; omega, by intro h; omega⟩

/-- Witness for the amended C8: a three-word message is not filler, and a
two-word message headed by an acknowledgement word is. -/
theorem C8_filler_iff_first_word_in_set_witness :
    isLikelyAutoFiller "one two three" = false ∧ isLikelyAutoFiller "Ok ho" = true := by
  constructor
  · exact (C8_filler_iff_first_word_in_set "one two three").2 (by decide)
  · exact (C8_filler_iff_first_word_in_set "Ok ho").1.mpr ⟨by decide, by decide, by decide⟩

/-! ## Retry-loop computation lemmas -/

theorem chainStep0 (vstep : Nat → String → VStep) (rwr : Nat → String → Verdict → String)
    (draft : String) (v0 : Verdict)
    (h0 : vstep 0 draft = VStep.ok v0) (hp0 : v0.pass = false) :
    chainLoop vstep rwr 2 0 draft =
      ((chainLoop vstep rwr 1 1 (rwr 0 draft v0)).1,
        LogEntry.verifyVerdict 0 false :: LogEntry.rewriteDone 0 ::
          (chainLoop vstep rwr 1 1 (rwr 0 draft v0)).2) := by
  have e : chainLoop vstep rwr 2 0 draft = chainLoop vstep rwr (1 + 1) 0 draft := rfl
  rw [e, chainLoop_step_fail vstep rwr 1 0 draft v0 h0 hp0]

theorem chainStep1 (vstep : Nat → String → VStep) (rwr : Nat → String → Verdict → String)
    (reply : String) (v1 : Verdict)
    (h1 : vstep 1 reply = VStep.ok v1) (hp1 : v1.pass = false) :
    chainLoop vstep rwr 1 1 reply =
      ((chainLoop vstep rwr 0 2 (rwr 1 reply v1)).1,
        LogEntry.verifyVerdict 1 false :: LogEntry.rewriteDone 1 ::
          (chainLoop vstep rwr 0 2 (rwr 1 reply v1)).2) := by
  have e : chainLoop vstep rwr 1 1 reply = chainLoop vstep rwr (0 + 1) 1 reply := rfl
  rw [e, chainLoop_step_fail vstep rwr 0 1 reply v1 h1 hp1]

/-- When every verification attempt yields a failing verdict, the loop runs
all three attempts and ends in the fallback on the verdict of attempt 2. -/
theorem chainLoop_all_fail_outcome (draft : String) (vstep : Nat → String → VStep)
    (rwr : Nat → String → Verdict → String)
    (hfail : ∀ i r, ∃ v, vstep i r = VStep.ok v ∧ v.pass = false) :
    ∃ v2 rep, vstep 2 rep = VStep.ok v2 ∧ v2.pass = false ∧
      thinkAndReplyOutcome draft vstep rwr =
        ((fallbackOutcome v2).1,
          LogEntry.verifyVerdict 0 false :: LogEntry.rewriteDone 0 ::
          LogEntry.verifyVerdict 1 false :: LogEntry.rewriteDone 1 ::
          LogEntry.verifyVerdict 2 false :: (fallbackOutcome v2).2) := by
  obtain ⟨v0, h0, hp0⟩ := hfail 0 draft
  obtain ⟨v1, h1, hp1⟩ := hfail 1 (rwr 0 draft v0)
  obtain ⟨v2, h2, hp2⟩ := hfail 2 (rwr 1 (rwr 0 draft v0) v1)
  refine ⟨v2, rwr 1 (rwr 0 draft v0) v1, h2, hp2, ?_⟩
  have e : thinkAndReplyOutcome draft vstep rwr = chainLoop vstep rwr 2 0 draft := rfl
  rw [e, chainStep0 vstep rwr draft v0 h0 hp0,
    chainStep1 vstep rwr (rwr 0 draft v0) v1 h1 hp1,
    chainLoop_last_fail vstep rwr 2 (rwr 1 (rwr 0 draft v0) v1) v2 h2 hp2]

/-! ## C1 -/

/-- C1: when all three verification attempts return failing verdicts and the
last verdict has no usable suggestion (empty, the literal "none", or failing
the length sanity check), `thinkAndReply` ends in terminal state `SKIPPED`
and returns no message — never a candidate that failed every attempt. -/
theorem C1_all_fail_no_suggestion_skipped (draft : String) (vstep : Nat → String → VStep)
    (rwr : Nat → String → Verdict → String)
    (hfail : ∀ i r, ∃ v, vstep i r = VStep.ok v ∧ v.pass = false)
    (hlast : ∀ r v, vstep 2 r = VStep.ok v → usableSuggestion v.suggestion = false) :
    (thinkAndReplyOutcome draft vstep rwr).1 = Outcome.SKIPPED ∧
    LogEntry.finalState "SKIPPED" ∈ (thinkAndReplyOutcome draft vstep rwr).2 := by
  obtain ⟨v2, rep, h2, hp2, e⟩ := chainLoop_all_fail_outcome draft vstep rwr hfail
  have hu := hlast rep v2 h2
  have hf : fallbackOutcome v2 = (Outcome.SKIPPED, [LogEntry.finalState "SKIPPED"]) := by
    unfold fallbackOutcome
    rw [hu]
    simp
  rw [e, hf]
  exact ⟨rfl, by simp⟩

def c1vstep : Nat → String → VStep :=
  fun _ _ => VStep.ok { pass := false, reason := "generic filler", suggestion := "none" }

def c1rw : Nat → String → Verdict → String := fun _ r _ => r

/-- Witness for C1: all three attempts fail with suggestion "none". -/
theorem C1_all_fail_no_suggestion_skipped_witness :
    (thinkAndReplyOutcome "Khai" c1vstep c1rw).1 = Outcome.SKIPPED := by
  refine (C1_all_fail_no_suggestion_skipped "Khai" c1vstep c1rw ?_ ?_).1
  · intro i r
    exact ⟨{ pass := false, reason := "generic filler", suggestion := "none" }, rfl, rfl⟩
  · intro r v h
    have hv : v = { pass := false, reason := "generic filler", suggestion := "none" } := by
      have := h.symm
      simpa [c1vstep] using this
    rw [hv]
    decide

/-! ## C4 -/

def c4vstep : Nat → String → VStep :=
  fun _ _ => VStep.ok { pass := false, reason := "off", suggestion := "\"ok \"" }

def c4rw : Nat → String → Verdict → String := fun _ r _ => r

/-- Modelled from the spec: "adopt it verbatim", "return that suggestion
verbatim (quote-stripped)" — stripping one surrounding quote from each side
and nothing else (no whitespace trimming). -/
def specQuoteStrip (s : String) : String :=
  let isQuote := fun (c : Char) => c = Char.ofNat 34 ∨ c = Char.ofNat 39
  let cs :=
    match s.data with
    | c :: rest => if isQuote c then rest else c :: rest
    | [] => []
  let cs2 :=
    match cs.getLast? with
    | some c => if isQuote c then cs.dropLast else cs
    | none => cs
  String.mk cs2

/-- C4 counterexample: with the last verdict's suggestion `"ok "` (in
quotes, with a trailing space), the pipeline returns `"ok"` — the quote
stripping is followed by a whitespace trim, so the adopted text is not the
verbatim quote-stripped suggestion `"ok "` (with the space). -/
theorem C4_counterexample :
    (thinkAndReplyOutcome "draft" c4vstep c4rw).1 = Outcome.SENT_SUGGESTION "ok" ∧
    specQuoteStrip "\"ok \"" = "ok " ∧
    Outcome.SENT_SUGGESTION "ok" ≠ Outcome.SENT_SUGGESTION "ok " := by
  decide

/-- C4 amended: when all attempts fail and the last verdict's suggestion
passes the usability check, `thinkAndReply` returns the suggestion with one
surrounding quote stripped from each side and surrounding whitespace
trimmed, as terminal state `SENT_SUGGESTION`. -/
theorem C4_suggestion_adopted (draft : String) (vstep : Nat → String → VStep)
    (rwr : Nat → String → Verdict → String) (sugg : String)
    (hfail : ∀ i r, ∃ v, vstep i r = VStep.ok v ∧ v.pass = false)
    (hsugg : ∀ r v, vstep 2 r = VStep.ok v → v.suggestion = sugg)
    (husable : usableSuggestion sugg = true) :
    (thinkAndReplyOutcome draft vstep rwr).1 =
      Outcome.SENT_SUGGESTION (jsStripQuotesTrim sugg) ∧
    LogEntry.finalState "SENT_SUGGESTION" ∈ (thinkAndReplyOutcome draft vstep rwr).2 := by
  obtain ⟨v2, rep, h2, hp2, e⟩ := chainLoop_all_fail_outcome draft vstep rwr hfail
  have hs := hsugg rep v2 h2
  have hf : fallbackOutcome v2 =
      (Outcome.SENT_SUGGESTION (jsStripQuotesTrim sugg),
        [LogEntry.finalState "SENT_SUGGESTION"]) := by
    unfold fallbackOutcome
    rw [hs, husable]
    simp
  rw [e, hf]
  exact ⟨rfl, by simp⟩

def c4wvstep : Nat → String → VStep :=
  fun _ _ => VStep.ok { pass := false, reason := "off", suggestion := "\"K xa?\"" }

/-- Witness for the amended C4 at a concrete quoted suggestion. -/
theorem C4_suggestion_adopted_witness :
    (thinkAndReplyOutcome "draft" c4wvstep c4rw).1 = Outcome.SENT_SUGGESTION "K xa?" := by
  have h := (C4_suggestion_adopted "draft" c4wvstep c4rw "\"K xa?\""
    (fun i r => ⟨{ pass := false, reason := "off", suggestion := "\"K xa?\"" }, rfl, rfl⟩)
    (by
      intro r v h
      have hv : v = { pass := false, reason := "off", suggestion := "\"K xa?\"" } := by
        have := h.symm
        simpa [c4wvstep] using this
      rw [hv])
    (by decide)).1
  rw [h]
  decide

/-! ## C10 -/

/-- C10: the length sanity check on the fallback suggestion is the strict
bound 100: with all attempts failed and a last suggestion that is nonempty
and not "none", a suggestion of fewer than 100 characters is adopted as
`SENT_SUGGESTION`, while one of 100 or more characters leads to `SKIPPED`. -/
theorem C10_suggestion_length_bound (draft : String) (vstep : Nat → String → VStep)
    (rwr : Nat → String → Verdict → String) (sugg : String)
    (hfail : ∀ i r, ∃ v, vstep i r = VStep.ok v ∧ v.pass = false)
    (hsugg : ∀ r v, vstep 2 r = VStep.ok v → v.suggestion = sugg)
    (hne : sugg ≠ "") (hnn : sugg ≠ "none") :
    (sugg.length < 100 →
      (thinkAndReplyOutcome draft vstep rwr).1 =
        Outcome.SENT_SUGGESTION (jsStripQuotesTrim sugg)) ∧
    (100 ≤ sugg.length → (thinkAndReplyOutcome draft vstep rwr).1 = Outcome.SKIPPED) := by
  obtain ⟨v2, rep, h2, hp2, e⟩ := chainLoop_all_fail_outcome draft vstep rwr hfail
  have hs := hsugg rep v2 h2
  constructor
  · intro hlt
    have hu : usableSuggestion sugg = true := by
      have hpos := strLengthPos sugg hne
      simp [usableSuggestion, hne, hnn, hpos, hlt]
    have hf : fallbackOutcome v2 =
        (Outcome.SENT_SUGGESTION (jsStripQuotesTrim sugg),
          [LogEntry.finalState "SENT_SUGGESTION"]) := by
      unfold fallbackOutcome
      rw [hs, hu]
      simp
    rw [e, hf]
  · intro hge
    have hu : usableSuggestion sugg = false := by
      simp only [usableSuggestion, decide_eq_false_iff_not]
      intro hcon
      omega
    have hf : fallbackOutcome v2 = (Outcome.SKIPPED, [LogEntry.finalState "SKIPPED"]) := by
      unfold fallbackOutcome
      rw [hs, hu]
      simp
    rw [e, hf]

def c10sugg : String := String.mk (List.replicate 100 (Char.ofNat 97))

def c10vstep : Nat → String → VStep :=
  fun _ _ => VStep.ok { pass := false, reason := "off", suggestion := c10sugg }

/-- Witness for C10: a 100-character suggestion is rejected and the run is
skipped. -/
theorem C10_suggestion_length_bound_witness :
    (thinkAndReplyOutcome "draft" c10vstep c1rw).1 = Outcome.SKIPPED := by
  exact (C10_suggestion_length_bound "draft" c10vstep c1rw c10sugg
    (fun i r => ⟨{ pass := false, reason := "off", suggestion := c10sugg }, rfl, rfl⟩)
    (by
      intro r v h
      have hv : v = { pass := false, reason := "off", suggestion := c10sugg } := by
        have := h.symm
        simpa [c10vstep] using this
      rw [hv])
    (by decide) (by decide)).2 (by decide)

/-! ## C5 -/

/-- C5: if the completion-service call throws during verification at any
attempt (all earlier attempts having failed normally), the pipeline fails
open: it terminates with state `SENT` returning the current candidate, the
error is logged as a distinct `Verify`-step failure, and no passing verify
entry appears in the log (so the outcome is distinguishable from a normal
pass). -/
theorem C5_verifier_error_fails_open (draft : String) (vstep : Nat → String → VStep)
    (rwr : Nat → String → Verdict → String) (vdict : Nat → String → Verdict) (j : Nat)
    (hj : j ≤ 2)
    (hok : ∀ i r, i < j → vstep i r = VStep.ok (vdict i r))
    (hfail : ∀ i r, i < j → (vdict i r).pass = false)
    (herr : ∀ r, vstep j r = VStep.err) :
    (thinkAndReplyOutcome draft vstep rwr).1 = Outcome.SENT (replyAt draft rwr vdict j) ∧
    LogEntry.verifyError j ∈ (thinkAndReplyOutcome draft vstep rwr).2 ∧
    ∀ i p, LogEntry.verifyVerdict i p ∈ (thinkAndReplyOutcome draft vstep rwr).2 →
      p = false := by
  have e : thinkAndReplyOutcome draft vstep rwr = chainLoop vstep rwr 2 0 draft := rfl
  interval_cases j
  · have c : chainLoop vstep rwr 2 0 draft =
        (Outcome.SENT draft, [LogEntry.verifyError 0, LogEntry.finalState "SENT"]) :=
      chainLoop_err vstep rwr 2 0 draft (herr draft)
    rw [e, c]
    refine ⟨rfl, by simp, ?_⟩
    intro i p hp
    simp at hp
  · have c : chainLoop vstep rwr 2 0 draft =
        (Outcome.SENT (rwr 0 draft (vdict 0 draft)),
          [LogEntry.verifyVerdict 0 false, LogEntry.rewriteDone 0,
            LogEntry.verifyError 1, LogEntry.finalState "SENT"]) := by
      rw [chainStep0 vstep rwr draft (vdict 0 draft) (hok 0 draft (by omega))
          (hfail 0 draft (by omega)),
        chainLoop_err vstep rwr 1 1 (rwr 0 draft (vdict 0 draft)) (herr _)]
    rw [e, c]
    refine ⟨rfl, by simp, ?_⟩
    intro i p hp
    simp at hp
    exact hp.2
  · have c : chainLoop vstep rwr 2 0 draft =
        (Outcome.SENT (rwr 1 (rwr 0 draft (vdict 0 draft))
            (vdict 1 (rwr 0 draft (vdict 0 draft)))),
          [LogEntry.verifyVerdict 0 false, LogEntry.rewriteDone 0,
            LogEntry.verifyVerdict 1 false, LogEntry.rewriteDone 1,
            LogEntry.verifyError 2, LogEntry.finalState "SENT"]) := by
      rw [chainStep0 vstep rwr draft (vdict 0 draft) (hok 0 draft (by omega))
          (hfail 0 draft (by omega)),
        chainStep1 vstep rwr (rwr 0 draft (vdict 0 draft))
          (vdict 1 (rwr 0 draft (vdict 0 draft)))
          (hok 1 _ (by omega)) (hfail 1 _ (by omega)),
        chainLoop_err vstep rwr 0 2 _ (herr _)]
    rw [e, c]
    refine ⟨rfl, by simp, ?_⟩
    intro i p hp
    simp at hp
    rcases hp with h | h
    · exact h.2
    · exact h.2

def c5verdict : Verdict := { pass := false, reason := "bad", suggestion := "none" }

def c5vstep : Nat → String → VStep :=
  fun i _ => if i = 1 then VStep.err else VStep.ok c5verdict

def c5rw : Nat → String → Verdict → String := fun _ _ _ => "fixed"

def c5vdict : Nat → String → Verdict := fun _ _ => c5verdict

/-- Witness for C5: the judge call throws at attempt 1 and the current
candidate is sent. -/
theorem C5_verifier_error_fails_open_witness :
    (thinkAndReplyOutcome "hi" c5vstep c5rw).1 = Outcome.SENT "fixed" ∧
    LogEntry.verifyError 1 ∈ (thinkAndReplyOutcome "hi" c5vstep c5rw).2 := by
  have h := C5_verifier_error_fails_open "hi" c5vstep c5rw c5vdict 1 (by omega)
    (by
      intro i r hi
      interval_cases i
      rfl)
    (by
      intro i r hi
      interval_cases i
      rfl)
    (by intro r; rfl)
  exact ⟨h.1, h.2.1⟩

/-! ## List helpers for the line-label analysis -/

theorem isPrefixOf_self_append (l t : List Char) : l.isPrefixOf (l ++ t) = true := by
  induction l with
  | nil => simp [List.isPrefixOf]
  | cons a m ih => simp [List.isPrefixOf, ih]

theorem takeWhile_append_all (p : Char → Bool) (l r : List Char) (h : ∀ a ∈ l, p a = true) :
    (l ++ r).takeWhile p = l ++ r.takeWhile p := by
  induction l with
  | nil => simp
  | cons a t ih =>
    have ha : p a = true := h a (by simp)
    simp only [List.cons_append, List.takeWhile_cons, ha, if_true]
    rw [ih (fun x hx => h x (by simp [hx]))]

/-- A line of the form `[u] [...` — a speaker label followed by a space and
an opening bracket instead of a colon — does not match the stripping
pattern, so it is returned unchanged. -/
theorem stripSpeakerLabel_no_colon (u t : List Char) (line : String) (hu : u ≠ [])
    (hnb : Char.ofNat 93 ∉ u)
    (hline : line.data = Char.ofNat 91 :: (u ++ Char.ofNat 93 :: Char.ofNat 32 :: Char.ofNat 91 :: t)) :
    stripSpeakerLabel line = line := by
  unfold stripSpeakerLabel
  rw [hline]
  have htw : (u ++ Char.ofNat 93 :: Char.ofNat 32 :: Char.ofNat 91 :: t).takeWhile
      (fun c => c ≠ Char.ofNat 93) = u := by
    rw [takeWhile_append_all]
    · simp
    · intro a ha
      simp only [ne_eq, decide_eq_true_eq]
      intro hcon
      exact hnb (hcon ▸ ha)
  simp only [htw]
  have hdrop : (u ++ Char.ofNat 93 :: Char.ofNat 32 :: Char.ofNat 91 :: t).drop u.length =
      Char.ofNat 93 :: Char.ofNat 32 :: Char.ofNat 91 :: t := List.drop_left u _
  simp [hu, hdrop]

/-! ## C7 -/

/-- C7: `getWordCountStats` returns the fixed default envelope when no
usable lines exist; otherwise it classifies each usable line as filler or
real and computes the statistics over the real-only sample exactly when that
sample has at least 3 points (else over all usable lines); and for every
computed sample the upper bound is `max(avg + 3, p75, 5)`. -/
theorem C7_word_count_stats_envelope (flow userName : String) :
    (collectBodies flow userName = [] → getWordCountStats flow userName = defaultStats) ∧
    (flow ≠ "" → (realSample flow userName).length ≥ 3 →
      getWordCountStats flow userName = computeStats (realSample flow userName)) ∧
    (flow ≠ "" → (realSample flow userName).length < 3 → allSample flow userName ≠ [] →
      getWordCountStats flow userName = computeStats (allSample flow userName)) ∧
    (∀ l : List Nat, (computeStats l).upper =
      Nat.max ((computeStats l).avg + 3) (Nat.max ((computeStats l).p75) 5)) := by
  refine ⟨?_, ?_, ?_, ?_⟩
  · intro h
    by_cases hf : flow = ""
    · simp [getWordCountStats, hf]
    · have hr : realSample flow userName = [] := by simp [realSample, h]
      have ha : allSample flow userName = [] := by simp [allSample, h]
      simp [getWordCountStats, hf, hr, ha]
  · intro hf h3
    have hne : (realSample flow userName).isEmpty = false := by
      cases hsample : realSample flow userName with
      | nil => rw [hsample] at h3; simp at h3
      | cons a tl => simp
    simp [getWordCountStats, hf, h3, hne]
  · intro hf h3 hall
    have hlt : ¬ (realSample flow userName).length ≥ 3 := by omega
    have hne : (allSample flow userName).isEmpty = false := by
      cases hsample : allSample flow userName with
      | nil => exact absurd hsample hall
      | cons a tl => simp
    simp [getWordCountStats, hf, hlt, hne]
  · intro l
    rfl

def c7flow : String := "[A]: one two three four\n[A]: five six\n[A]: ok"

/-- Witness for C7: the empty history yields the default envelope, and a
history with fewer than 3 real messages falls back to the all-lines sample. -/
theorem C7_word_count_stats_envelope_witness :
    getWordCountStats "" "A" = defaultStats ∧
    getWordCountStats c7flow "A" = computeStats [4, 2, 1] := by
  constructor
  · exact (C7_word_count_stats_envelope "" "A").1 (by decide)
  · have h := (C7_word_count_stats_envelope c7flow "A").2.2.1 (by decide) (by decide) (by decide)
    rw [h]
    decide

/-! ## C9 -/

/-- C9 amended: an outgoing history message tagged as machine-generated (id
starting with `auto_` or `web_`) is rendered with the `[AI-GENERATED]` tag;
the rendered line still starts with `[userName]`, and the tag breaks the
speaker-label stripping pattern, so the line is NOT excluded — its whole
rendered text is treated as the message body by the statistics and the
exemplar extraction. -/
theorem C9_ai_tagged_lines_not_excluded (userName contactName : String) (m : HistMsg)
    (hne : userName ≠ "") (hnb : Char.ofNat 93 ∉ userName.data)
    (hauto : m.fromMe = true)
    (hid : m.id ≠ "" ∧ (strStartsWith m.id "auto_" = true ∨ strStartsWith m.id "web_" = true))
    (htime : m.timeLabel = none) :
    strStartsWith (renderLine userName contactName m) ("[" ++ userName ++ "]") = true ∧
    stripSpeakerLabel (renderLine userName contactName m) = renderLine userName contactName m := by
  have hd : renderLine userName contactName m =
      "[" ++ userName ++ "]" ++ " [AI-GENERATED]" ++ ": " ++ m.body := by
    unfold renderLine
    rw [hauto, htime]
    simp [hid.1, hid.2]
  have hld : (renderLine userName contactName m).data =
      Char.ofNat 91 :: (userName.data ++ Char.ofNat 93 :: Char.ofNat 32 :: Char.ofNat 91 ::
        (("AI-GENERATED]: " : String).data ++ m.body.data)) := by
    rw [hd]
    simp [String.data_append]
  have hu : userName.data ≠ [] := by
    intro h0
    apply hne
    cases userName
    simp_all
  constructor
  · unfold strStartsWith
    have hpd : ("[" ++ userName ++ "]" : String).data =
        Char.ofNat 91 :: (userName.data ++ [Char.ofNat 93]) := by
      simp [String.data_append]
    rw [hld, hpd]
    have hsplit : Char.ofNat 91 :: (userName.data ++ Char.ofNat 93 :: Char.ofNat 32 ::
        Char.ofNat 91 :: (("AI-GENERATED]: " : String).data ++ m.body.data)) =
        (Char.ofNat 91 :: (userName.data ++ [Char.ofNat 93])) ++
          (Char.ofNat 32 :: Char.ofNat 91 ::
            (("AI-GENERATED]: " : String).data ++ m.body.data)) := by
      simp
    rw [hsplit]
    exact isPrefixOf_self_append _ _
  · exact stripSpeakerLabel_no_colon userName.data _ _ hu hnb hld

def c9msgs : List HistMsg :=
  [{ fromMe := true, id := "m1", timeLabel := none, body := "hi there" },
   { fromMe := true, id := "auto_1", timeLabel := none, body := "ok" }]

def c9flow : String := buildFlow "A" "B" c9msgs

/-- C9 counterexample: in a conversation with one human outgoing message
("hi there", 2 words) and one machine-generated outgoing message (id
`auto_1`, body "ok"), the statistics sample is `[2, 3]` — the tagged line is
included, counted as the 3-token text `[A] [AI-GENERATED]: ok` — the
derived envelope reflects it, and the exemplar string shown to later stages
contains the full tagged line.  Machine-generated lines are therefore not
excluded from the statistics or the examples. -/
theorem C9_counterexample :
    c9flow = "[A]: hi there\n[A] [AI-GENERATED]: ok" ∧
    allSample c9flow "A" = [2, 3] ∧
    getWordCountStats c9flow "A" = { min := 2, avg := 3, max := 3, p75 := 3, upper := 6 } ∧
    extractUserExamples c9flow "A" = "\"hi there\", \"[A] [AI-GENERATED]: ok\"" := by
  decide

/-- Witness for the amended C9 at a concrete machine-generated message. -/
theorem C9_ai_tagged_lines_not_excluded_witness :
    strStartsWith
      (renderLine "A" "B" { fromMe := true, id := "auto_1", timeLabel := none, body := "ok" })
      "[A]" = true ∧
    stripSpeakerLabel
      (renderLine "A" "B" { fromMe := true, id := "auto_1", timeLabel := none, body := "ok" }) =
      renderLine "A" "B" { fromMe := true, id := "auto_1", timeLabel := none, body := "ok" } := by
  exact C9_ai_tagged_lines_not_excluded "A" "B" _ (by decide) (by decide) rfl
    ⟨by decide, Or.inl (by decide)⟩ rfl

end ChainSpec
